import Mathlib

/-
Verification of the taxon identity registry and split-bitmask subsystem of
src/dendropy/dataobject/taxon.py.

The embedding models Python object identity with a heap (`World`): a taxon
identity is its allocation index, and mutation of a taxon attribute (the
lazily cached `clade_mask`) updates the heap entry.  A `TaxonSet` holds the
ordered member sequence (identities) and the `_is_mutable` flag.  Fallible
operations return `Except Err`.
-/

namespace DendroPy

/-- A taxon object (class Taxon, taxon.py lines 285 to 307).  The identity of
a taxon is its allocation index in the `World` heap; equality and hashing are
by identity, never by label.  Modelled from the spec: the base class
dendropy.dataobject.base.IdTagged is not under src/; the spec section 3
describes a taxon as an id and label pair with identity-based equality,
carrying an optional lazily computed single-bit integer (the `clade_mask`
attribute written by `taxon_bitmask`). -/
structure TaxonObj where
  oid : Option String
  label : Option String
  clade_mask : Option Nat
  deriving DecidableEq

/-- The heap of allocated taxon objects; a taxon identity is an index into
`taxa` (allocation order). -/
structure World where
  taxa : List TaxonObj
  deriving DecidableEq

/-- Allocation of a new Taxon(label, oid): appends a fresh object with no
cached bitmask and returns its identity. -/
def World.fresh (w : World) (oid label : Option String) : Nat × World :=
  (w.taxa.length, ⟨w.taxa ++ [⟨oid, label, none⟩]⟩)

/-- Attribute read through a taxon identity. -/
def World.getTaxon (w : World) (t : Nat) : TaxonObj :=
  w.taxa.getD t ⟨none, none, none⟩

/-- Writing `taxon.clade_mask = m`: caching a computed bitmask on the taxon
object (taxon.py line 275). -/
def World.setCache (w : World) (t m : Nat) : World :=
  ⟨w.taxa.set t { w.getTaxon t with clade_mask := some m }⟩

/-- TaxonSet (taxon.py line 98): ordered member sequence plus the
`_is_mutable` flag.  Modelled from the spec: the base container
dendropy.utility.containers.OrderedSet is not under src/; the spec section 3
and the docstring of `clear` ("Removes all taxa from this list") describe it
as an ordered, duplicate-free list of identities with list-style
first-occurrence removal, identity-based `index`, and Python index-based
sequence iteration. -/
structure TaxonSet where
  members : List Nat
  is_mutable : Bool
  deriving DecidableEq

/-- Result of `TaxonSet()` with no positional argument (taxon.py line 126):
empty member list, mutable by default (line 128). -/
def TaxonSet.new_empty : TaxonSet := ⟨[], true⟩

/-- Behaviour of `OrderedSet.add`: append the identity if no member is the
same identity, else leave the sequence unchanged. -/
def TaxonSet.add (ts : TaxonSet) (t : Nat) : TaxonSet :=
  if ts.members.contains t then ts else ⟨ts.members ++ [t], ts.is_mutable⟩

/-- Abstract error kinds of the spec, mapped onto the exceptions raised by
taxon.py: KeyError on mutation of an immutable set, ValueError from
`taxon_bitmask`, Exception from a criterion-less lookup, KeyError from
`new_taxon` with `error_if_label_exists`. -/
inductive Err where
  | immutable
  | notFound
  | invalidQuery
  | duplicateLabel
  deriving DecidableEq

/-- Static method `_to_taxon` (taxon.py lines 103 to 109): a string input
produces a fresh Taxon with that label; a Taxon input is returned as-is (the
same identity, line 105), not copied. -/
def to_taxon (w : World) : Sum String Nat → Nat × World
  | Sum.inl s => w.fresh none (some s)
  | Sum.inr t => (t, w)

/-- The list comprehension of the constructor (taxon.py line 124), evaluated
left to right. -/
def to_taxa (w : World) : List (Sum String Nat) → List Nat × World
  | [] => ([], w)
  | it :: rest =>
    let p := to_taxon w it
    let q := to_taxa p.2 rest
    (p.1 :: q.1, q.2)

/-- Constructor `TaxonSet.__init__` with one positional iterable (taxon.py
lines 111 to 128): converts each item via `_to_taxon` and initialises the
member list with the resulting identities; `is_mutable` defaults to true. -/
def TaxonSet.ofItems (w : World) (items : List (Sum String Nat)) (is_mut : Bool) :
    World × TaxonSet :=
  let p := to_taxa w items
  (p.2, ⟨p.1, is_mut⟩)

/-- Registry built from a list of labels, as in TaxonSet (list of strings). -/
def TaxonSet.ofLabels (w : World) (ls : List String) : World × TaxonSet :=
  TaxonSet.ofItems w (ls.map Sum.inl) true

/-- Method `lock` (taxon.py line 136): sets `_is_mutable` to False. -/
def TaxonSet.lock (ts : TaxonSet) : TaxonSet := ⟨ts.members, false⟩

/-- Method `unlock` (taxon.py line 139): sets `_is_mutable` to True. -/
def TaxonSet.unlock (ts : TaxonSet) : TaxonSet := ⟨ts.members, true⟩

/-- Method `get_is_locked` (taxon.py line 142), the getter behind the
`is_locked` property: it returns `self._is_mutable` as written. -/
def TaxonSet.get_is_locked (ts : TaxonSet) : Bool := ts.is_mutable

/-- Per-member match test of `get_taxon` (taxon.py lines 202 to 205): oid was
supplied and matches, or label was supplied and matches. -/
def matchesTaxon (w : World) (oid label : Option String) (t : Nat) : Bool :=
  (oid.isSome && ((w.getTaxon t).oid == oid)) ||
  (label.isSome && ((w.getTaxon t).label == label))

/-- Method `get_taxon` (taxon.py lines 192 to 206): raises when neither
criterion is supplied, else returns the first member matching oid or label,
else None. -/
def get_taxon (w : World) (ts : TaxonSet) (oid label : Option String) :
    Except Err (Option Nat) :=
  if oid.isNone && label.isNone then .error .invalidQuery
  else .ok (ts.members.find? (matchesTaxon w oid label))

/-- Method `require_taxon` (taxon.py lines 208 to 224): existing match if
found; else, if mutable, create, add and return a fresh taxon; else raise. -/
def require_taxon (w : World) (ts : TaxonSet) (oid label : Option String) :
    Except Err (Nat × World × TaxonSet) :=
  match get_taxon w ts oid label with
  | .error e => .error e
  | .ok (some t) => .ok (t, w, ts)
  | .ok none =>
    if ts.is_mutable then
      let p := w.fresh oid label
      .ok (p.1, p.2, ts.add p.1)
    else .error .immutable

/-- Method `add_taxon` (taxon.py lines 226 to 232): raises if not mutable,
else adds. -/
def add_taxon (ts : TaxonSet) (t : Nat) : Except Err TaxonSet :=
  if !ts.is_mutable then .error .immutable else .ok (ts.add t)

/-- Method `new_taxon` (taxon.py lines 234 to 242).  The inner `get_taxon`
call of the duplicate check runs only when `error_if_label_exists` is true
(Python and-operator short-circuits); its label keyword is always present
there, so the criterion-less error cannot fire and the check reduces to the
member scan. -/
def new_taxon (w : World) (ts : TaxonSet) (label oid : Option String)
    (error_if_label_exists : Bool) : Except Err (Nat × World × TaxonSet) :=
  if !ts.is_mutable then .error .immutable
  else if error_if_label_exists && (ts.members.find? (matchesTaxon w none label)).isSome then
    .error .duplicateLabel
  else
    let p := w.fresh oid label
    .ok (p.1, p.2, ts.add p.1)

/-- The loop of `clear` (taxon.py lines 244 to 247), written
`for t in self: self.remove(t)`, following Python index-based sequence
iteration: the iterator keeps an index into the list being mutated, so
removing the current element shifts the remainder left and the next element
is skipped.  The fuel argument only bounds the iteration count; `i` grows by
one each pass while the length never grows, so an initial fuel of `l.length`
is never exhausted while `i < l.length` still holds. -/
def clearGo : Nat → List Nat → Nat → List Nat
  | 0, l, _ => l
  | fuel + 1, l, i =>
    if h : i < l.length then clearGo fuel (l.erase l[i]) (i + 1) else l

/-- Method `clear` (taxon.py lines 244 to 247).  Note the absence of any
mutability check in the source. -/
def TaxonSet.clear (ts : TaxonSet) : TaxonSet :=
  ⟨clearGo ts.members.length ts.members 0, ts.is_mutable⟩

/-- Python str on an optional label: str(None) is the string "None". -/
def pyStr : Option String → String
  | some s => s
  | none => "None"

/-- Method `labels` (taxon.py lines 249 to 251). -/
def TaxonSet.getLabels (w : World) (ts : TaxonSet) : List String :=
  ts.members.map (fun t => pyStr (w.getTaxon t).label)

/-- Python list.index by identity: index of the first occurrence, if any. -/
def seqIndex (t : Nat) : List Nat → Option Nat
  | [] => none
  | a :: l => if a = t then some 0 else (seqIndex t l).map (fun i => i + 1)

/-- Method `taxon_bitmask` (taxon.py lines 263 to 279): return the cached
`clade_mask` when the attribute is present (with no membership check);
otherwise compute 1 shifted by the member index, cache it on the taxon
object and return it; raise when the taxon is not a member. -/
def taxon_bitmask (w : World) (ts : TaxonSet) (t : Nat) : Except Err (Nat × World) :=
  match (w.getTaxon t).clade_mask with
  | some m => .ok (m, w)
  | none =>
    match seqIndex t ts.members with
    | some i => .ok (1 <<< i, w.setCache t (1 <<< i))
    | none => .error .notFound

/-- Value component of a `taxon_bitmask` call, `none` on failure. -/
def bitmask_val (w : World) (ts : TaxonSet) (t : Nat) : Option Nat :=
  match taxon_bitmask w ts t with
  | .ok p => some p.1
  | .error _ => none

/-- Method `all_taxa_bitmask` (taxon.py lines 257 to 261):
b = 1 shifted left by the member count; return b - 1. -/
def all_taxa_bitmask (ts : TaxonSet) : Nat :=
  (1 <<< ts.members.length) - 1

/-- Method `complement_split_bitmask` (taxon.py lines 253 to 255), source
text (bitwise-not split) AND all_taxa_bitmask() on Python arbitrary-precision
integers.  For nonnegative split and a, the value (bitwise-not split) AND a
keeps exactly the bits of a that are clear in split: bit i of the result is
(a at i) AND NOT (split at i), which on Nat is a XOR (split AND a). -/
def complement_split_bitmask (ts : TaxonSet) (split : Nat) : Nat :=
  all_taxa_bitmask ts ^^^ (split &&& all_taxa_bitmask ts)

/-- Floor of the base-10 logarithm, fuel-based (fuel n suffices since the
argument shrinks by a factor of 10 each step).  Models int(math.log(ntax, 10))
of `new_taxon_set` (taxon.py line 43): the source computes the logarithm in
IEEE double arithmetic, which agrees with the exact real logarithm at the
inputs exercised by the spec (5 and 100; at 100 the quotient of the two
rounded logarithms is exactly 2 because doubling a double is exact, and at 5
the logarithm lies strictly between 0 and 1). -/
def log10floor : Nat → Nat → Nat
  | 0, _ => 0
  | fuel + 1, n => if n < 10 then 0 else log10floor fuel (n / 10) + 1

/-- The template "T%0Nd" applied to i: decimal digits of i, left-padded with
the zero character to the requested width (no truncation when wider). -/
def zeroPad (width i : Nat) : String :=
  let s := toString i
  if s.length < width then String.mk (List.replicate (width - s.length) '0') ++ s else s

/-- Default label function of `new_taxon_set` (taxon.py lines 42 to 45). -/
def default_label_func (ntax i : Nat) : String :=
  "T" ++ zeroPad (log10floor ntax ntax + 1) i

/-- The loop of `new_taxon_set` (taxon.py lines 46 to 47): for i in
range(ntax), call new_taxon with label label_func(i+1). -/
def new_taxon_set_loop (lf : Nat → String) (w : World) (ts : TaxonSet) :
    List Nat → Except Err (World × TaxonSet)
  | [] => .ok (w, ts)
  | i :: rest =>
    match new_taxon w ts (some (lf (i + 1))) none false with
    | .ok p => new_taxon_set_loop lf p.2.1 p.2.2 rest
    | .error e => .error e

/-- Factory `new_taxon_set` (taxon.py lines 33 to 48) with the default label
function. -/
def new_taxon_set (w : World) (ntax : Nat) : Except Err (World × TaxonSet) :=
  new_taxon_set_loop (default_label_func ntax) w TaxonSet.new_empty (List.range ntax)

/-- Member sequence observed after an `add_taxon` call: a raised exception
leaves the sequence as it was. -/
def members_after_add (ts : TaxonSet) (t : Nat) : List Nat :=
  match add_taxon ts t with
  | .ok ts2 => ts2.members
  | .error _ => ts.members

/-- Member sequence observed after a `new_taxon` call. -/
def members_after_new (w : World) (ts : TaxonSet) (label oid : Option String)
    (eie : Bool) : List Nat :=
  match new_taxon w ts label oid eie with
  | .ok p => p.2.2.members
  | .error _ => ts.members

/-- Member sequence observed after a `require_taxon` call. -/
def members_after_require (w : World) (ts : TaxonSet) (oid label : Option String) :
    List Nat :=
  match require_taxon w ts oid label with
  | .ok p => p.2.2.members
  | .error _ => ts.members

/-- Shape of a registry construction from a list of labels: the members are
the freshly allocated identities in order, and the heap is extended with one
fresh object per label. -/
theorem to_taxa_map_inl (ls : List String) : ∀ w : World,
    to_taxa w (ls.map Sum.inl) =
      (List.range' w.taxa.length ls.length,
       World.mk (w.taxa ++ ls.map (fun s => ⟨none, some s, none⟩))) := by
  induction ls with
  | nil => intro w; simp [to_taxa]
  | cons s rest ih =>
    intro w
    simp only [List.map_cons, to_taxa, to_taxon, World.fresh]
    rw [ih]
    simp [List.range'_succ, List.append_assoc]

/-- Index of an element of an arithmetic progression with step one. -/
theorem seqIndex_range' : ∀ (n base i : Nat), i < n →
    seqIndex (base + i) (List.range' base n) = some i := by
  intro n
  induction n with
  | zero => intro base i h; omega
  | succ n ih =>
    intro base i h
    rw [List.range'_succ]
    cases i with
    | zero => simp [seqIndex]
    | succ j =>
      simp only [seqIndex]
      rw [if_neg (by omega)]
      rw [show base + (j + 1) = (base + 1) + j by omega, ih (base + 1) j (by omega)]
      rfl

/-- Reading past a prefix of an appended list. -/
theorem getD_append_length_add (l l2 : List TaxonObj) (i : Nat) (d : TaxonObj) :
    (l ++ l2).getD (l.length + i) d = l2.getD i d := by
  induction l with
  | nil => simp
  | cons a t ih =>
    simp only [List.cons_append, List.length_cons]
    rw [show t.length + 1 + i = (t.length + i) + 1 by omega]
    simpa [List.getD_cons_succ] using ih

/-- C1 (amended): for a registry built from labels, whose members are freshly
allocated and so carry no previously cached bit value, the member at 0-based
position i has taxonBitmask 1 shifted left by i, and allTaxaBitmask is
1 shifted left by the member count, minus 1; in particular, for labels
A, B, C the bitmasks are 1, 2, 4 and the all-taxa mask is 7. -/
theorem c1_fresh_label_registry_bitmasks (w : World) (ls : List String) (i : Nat)
    (h : i < ls.length) :
    bitmask_val (TaxonSet.ofLabels w ls).1 (TaxonSet.ofLabels w ls).2
        ((TaxonSet.ofLabels w ls).2.members.getD i 0) = some (1 <<< i)
    ∧ all_taxa_bitmask (TaxonSet.ofLabels w ls).2 = (1 <<< ls.length) - 1
    ∧ (bitmask_val (TaxonSet.ofLabels ⟨[]⟩ ["A", "B", "C"]).1
          (TaxonSet.ofLabels ⟨[]⟩ ["A", "B", "C"]).2 0 = some 1
        ∧ bitmask_val (TaxonSet.ofLabels ⟨[]⟩ ["A", "B", "C"]).1
            (TaxonSet.ofLabels ⟨[]⟩ ["A", "B", "C"]).2 1 = some 2
        ∧ bitmask_val (TaxonSet.ofLabels ⟨[]⟩ ["A", "B", "C"]).1
            (TaxonSet.ofLabels ⟨[]⟩ ["A", "B", "C"]).2 2 = some 4
        ∧ all_taxa_bitmask (TaxonSet.ofLabels ⟨[]⟩ ["A", "B", "C"]).2 = 7) := by
  have hof : TaxonSet.ofLabels w ls =
      (World.mk (w.taxa ++ ls.map (fun s => ⟨none, some s, none⟩)),
       TaxonSet.mk (List.range' w.taxa.length ls.length) true) := by
    simp [TaxonSet.ofLabels, TaxonSet.ofItems, to_taxa_map_inl]
  refine ⟨?_, ?_, rfl, rfl, rfl, rfl⟩
  · rw [hof]
    have hgetD : (List.range' w.taxa.length ls.length).getD i 0 = w.taxa.length + i := by
      rw [List.getD_eq_getElem?_getD,
        List.getElem?_eq_getElem (by simpa using h), List.getElem_range']
      simp
    show bitmask_val _ _ _ = some (1 <<< i)
    rw [hgetD]
    unfold bitmask_val taxon_bitmask World.getTaxon
    have hcache :
        (w.taxa ++ ls.map (fun s => (⟨none, some s, none⟩ : TaxonObj))).getD
          (w.taxa.length + i) ⟨none, none, none⟩
          = ⟨none, some (ls.getD i ""), none⟩ := by
      rw [getD_append_length_add]
      rw [List.getD_eq_getElem?_getD, List.getElem?_eq_getElem (by simpa using h),
        List.getElem_map]
      rw [List.getD_eq_getElem?_getD, List.getElem?_eq_getElem h]
      simp
    simp only [hcache]
    rw [seqIndex_range' ls.length w.taxa.length i h]
  · rw [hof]
    simp [all_taxa_bitmask]

/-- C1 (counterexample): a taxon whose bitmask was cached while it was the
sole member of one registry and which is then added at position 1 of a second
registry keeps the cached value 1, so the member at position 1 does not have
bitmask 1 shifted left by 1; the conjuncts trace the states through the
operations. -/
theorem c1_counterexample_stale_cache :
    add_taxon TaxonSet.new_empty 0 = .ok ⟨[0], true⟩
    ∧ taxon_bitmask ⟨[⟨none, none, none⟩]⟩ ⟨[0], true⟩ 0
        = .ok (1, ⟨[⟨none, none, some 1⟩]⟩)
    ∧ new_taxon ⟨[⟨none, none, some 1⟩]⟩ TaxonSet.new_empty (some "X") none false
        = .ok (1, ⟨[⟨none, none, some 1⟩, ⟨none, some "X", none⟩]⟩, ⟨[1], true⟩)
    ∧ add_taxon ⟨[1], true⟩ 0 = .ok ⟨[1, 0], true⟩
    ∧ bitmask_val ⟨[⟨none, none, some 1⟩, ⟨none, some "X", none⟩]⟩ ⟨[1, 0], true⟩
        ((⟨[1, 0], true⟩ : TaxonSet).members.getD 1 0) = some 1
    ∧ some 1 ≠ some (1 <<< 1) :=
  ⟨rfl, rfl, rfl, rfl, rfl, by decide⟩

/-- C1 (witness): the amended theorem applied to the concrete registry built
from labels A, B, C at position 0. -/
theorem c1_fresh_label_registry_bitmasks_witness :
    bitmask_val (TaxonSet.ofLabels ⟨[]⟩ ["A", "B", "C"]).1
        (TaxonSet.ofLabels ⟨[]⟩ ["A", "B", "C"]).2
        ((TaxonSet.ofLabels ⟨[]⟩ ["A", "B", "C"]).2.members.getD 0 0) = some (1 <<< 0) :=
  (c1_fresh_label_registry_bitmasks ⟨[]⟩ ["A", "B", "C"] 0 (by decide)).1

/-- C2 (counterexample): on a locked registry, clear does not raise (the
source consults no gate there: it is a total operation) and it changes the
member sequence. -/
theorem c2_counterexample_clear_ignores_lock :
    TaxonSet.clear ⟨[0], false⟩ = ⟨[], false⟩
    ∧ (TaxonSet.clear ⟨[0], false⟩).members ≠ (⟨[0], false⟩ : TaxonSet).members :=
  ⟨rfl, by decide⟩

/-- C2 (amended): on a locked registry, addTaxon and newTaxon raise
ImmutableRegistryError and leave the member sequence unchanged; clear does
not consult the gate and behaves exactly as on the unlocked registry. -/
theorem c2_locked_mutator_gate (w : World) (ts : TaxonSet) (t : Nat)
    (label oid : Option String) (eie : Bool) (h : ts.is_mutable = false) :
    add_taxon ts t = .error .immutable
    ∧ members_after_add ts t = ts.members
    ∧ new_taxon w ts label oid eie = .error .immutable
    ∧ members_after_new w ts label oid eie = ts.members
    ∧ (TaxonSet.clear ts).members = (TaxonSet.clear (TaxonSet.unlock ts)).members := by
  simp [add_taxon, new_taxon, members_after_add, members_after_new,
    TaxonSet.clear, TaxonSet.unlock, h]

/-- C2 (witness): the amended theorem at a concrete locked singleton
registry. -/
theorem c2_locked_mutator_gate_witness :
    add_taxon ⟨[0], false⟩ 5 = .error .immutable
    ∧ members_after_add ⟨[0], false⟩ 5 = [0]
    ∧ new_taxon ⟨[]⟩ ⟨[0], false⟩ (some "L") none false = .error .immutable := by
  have h := c2_locked_mutator_gate ⟨[]⟩ ⟨[0], false⟩ 5 (some "L") none false rfl
  exact ⟨h.1, h.2.1, h.2.2.1⟩

/-- C3 (code bug evidence): the getter behind the is_locked property returns
the internal mutability flag without negation, so a freshly constructed
registry reports locked, after lock() the query returns false, and after
unlock() it returns true — the exact inversion of the claimed (and clearly
intended) behaviour. -/
theorem c3_is_locked_returns_mutable_flag :
    TaxonSet.get_is_locked TaxonSet.new_empty = true
    ∧ TaxonSet.get_is_locked (TaxonSet.lock TaxonSet.new_empty) = false
    ∧ TaxonSet.get_is_locked (TaxonSet.unlock (TaxonSet.lock TaxonSet.new_empty)) = true :=
  ⟨rfl, rfl, rfl⟩

/-- C4 (code bug evidence): constructing a registry from an iterable holding
an existing taxon identity adds that identity itself as the member (the
member sequence is exactly the passed identity) and allocates nothing new
(the heap is unchanged), contradicting the constructor docstring, which
promises a new distinct taxon sharing only the label. -/
theorem c4_constructor_keeps_taxon_reference :
    (TaxonSet.ofItems ⟨[⟨none, some "A", none⟩]⟩ [Sum.inr 0] true).2.members = [0]
    ∧ (TaxonSet.ofItems ⟨[⟨none, some "A", none⟩]⟩ [Sum.inr 0] true).1
        = ⟨[⟨none, some "A", none⟩]⟩ :=
  ⟨rfl, rfl⟩

/-- A taxon that is a member of no position of the list is not found by the
index scan. -/
theorem seqIndex_eq_none (t : Nat) (l : List Nat) (h : t ∉ l) :
    seqIndex t l = none := by
  induction l with
  | nil => rfl
  | cons a l ih =>
    simp only [List.mem_cons, not_or] at h
    rw [seqIndex, if_neg (fun hh => h.1 hh.symm), ih h.2]
    rfl

/-- C5 (counterexample): a taxon that cached bitmask 1 while it was a member
and was then removed by clear is no longer a member, yet taxonBitmask returns
the cached 1 instead of failing with NotFoundError. -/
theorem c5_counterexample_cached_nonmember :
    taxon_bitmask ⟨[⟨none, some "A", none⟩]⟩ ⟨[0], true⟩ 0
        = .ok (1, ⟨[⟨none, some "A", some 1⟩]⟩)
    ∧ TaxonSet.clear ⟨[0], true⟩ = ⟨[], true⟩
    ∧ taxon_bitmask ⟨[⟨none, some "A", some 1⟩]⟩ ⟨[], true⟩ 0
        = .ok (1, ⟨[⟨none, some "A", some 1⟩]⟩)
    ∧ (0 : Nat) ∉ (⟨[], true⟩ : TaxonSet).members :=
  ⟨rfl, rfl, rfl, by decide⟩

/-- C5 (amended): taxonBitmask fails with NotFoundError exactly on
non-members that carry no cached bit value; a non-member carrying a cached
value returns that (stale) value instead of failing. -/
theorem c5_bitmask_nonmember (w : World) (ts : TaxonSet) (t : Nat)
    (h : t ∉ ts.members) :
    ((w.getTaxon t).clade_mask = none → taxon_bitmask w ts t = .error .notFound)
    ∧ ∀ m, (w.getTaxon t).clade_mask = some m → taxon_bitmask w ts t = .ok (m, w) := by
  constructor
  · intro hc
    unfold taxon_bitmask
    rw [hc, seqIndex_eq_none t ts.members h]
  · intro m hc
    unfold taxon_bitmask
    rw [hc]

/-- C5 (witness): the amended theorem at two concrete non-members, one with
no cache (failure) and one with cached value 7 (stale success). -/
theorem c5_bitmask_nonmember_witness :
    taxon_bitmask ⟨[⟨none, none, none⟩, ⟨none, none, some 7⟩]⟩ ⟨[], true⟩ 0
        = .error .notFound
    ∧ taxon_bitmask ⟨[⟨none, none, none⟩, ⟨none, none, some 7⟩]⟩ ⟨[], true⟩ 1
        = .ok (7, ⟨[⟨none, none, none⟩, ⟨none, none, some 7⟩]⟩) :=
  ⟨(c5_bitmask_nonmember ⟨[⟨none, none, none⟩, ⟨none, none, some 7⟩]⟩ ⟨[], true⟩ 0
      (by decide)).1 rfl,
   (c5_bitmask_nonmember ⟨[⟨none, none, none⟩, ⟨none, none, some 7⟩]⟩ ⟨[], true⟩ 1
      (by decide)).2 7 rfl⟩

/-- C6 (confirmed): for every registry and every mask m between 0 and the
all-taxa mask, the complement is an exact partition — OR with m gives the
all-taxa mask, AND with m gives 0 — and equals m XOR the all-taxa mask. -/
theorem c6_complement_partitions (ts : TaxonSet) (m : Nat)
    (h : m ≤ all_taxa_bitmask ts) :
    complement_split_bitmask ts m ||| m = all_taxa_bitmask ts
    ∧ complement_split_bitmask ts m &&& m = 0
    ∧ complement_split_bitmask ts m = m ^^^ all_taxa_bitmask ts := by
  have hall : all_taxa_bitmask ts = 2 ^ ts.members.length - 1 := by
    simp [all_taxa_bitmask, Nat.one_shiftLeft]
  have hm : m < 2 ^ ts.members.length := by
    have hpos : 0 < 2 ^ ts.members.length := Nat.pos_pow_of_pos _ (by omega)
    omega
  have hhigh : ∀ i, ¬ i < ts.members.length → m.testBit i = false := by
    intro i hi
    exact Nat.testBit_lt_two_pow
      (Nat.lt_of_lt_of_le hm (Nat.pow_le_pow_right (by omega) (by omega)))
  refine ⟨?_, ?_, ?_⟩
  · apply Nat.eq_of_testBit_eq
    intro i
    simp only [complement_split_bitmask, hall, Nat.testBit_or, Nat.testBit_xor,
      Nat.testBit_and, Nat.testBit_two_pow_sub_one]
    by_cases hi : i < ts.members.length
    · cases hmi : m.testBit i <;> simp [hi, hmi]
    · simp [hi, hhigh i hi]
  · apply Nat.eq_of_testBit_eq
    intro i
    simp only [complement_split_bitmask, hall, Nat.testBit_xor,
      Nat.testBit_and, Nat.testBit_two_pow_sub_one, Nat.zero_testBit]
    by_cases hi : i < ts.members.length
    · cases hmi : m.testBit i <;> simp [hi, hmi]
    · simp [hi, hhigh i hi]
  · apply Nat.eq_of_testBit_eq
    intro i
    simp only [complement_split_bitmask, hall, Nat.testBit_xor,
      Nat.testBit_and, Nat.testBit_two_pow_sub_one]
    by_cases hi : i < ts.members.length
    · cases hmi : m.testBit i <;> simp [hi, hmi]
    · simp [hi, hhigh i hi]

/-- C6 (witness): the theorem at the concrete two-member registry with
mask 1. -/
theorem c6_complement_partitions_witness :
    complement_split_bitmask ⟨[0, 1], true⟩ 1 ||| 1 = all_taxa_bitmask ⟨[0, 1], true⟩
    ∧ complement_split_bitmask ⟨[0, 1], true⟩ 1 &&& 1 = 0
    ∧ complement_split_bitmask ⟨[0, 1], true⟩ 1
        = 1 ^^^ all_taxa_bitmask ⟨[0, 1], true⟩ :=
  c6_complement_partitions ⟨[0, 1], true⟩ 1 (by decide)

/-- C7 (code bug evidence): clear on an unlocked two-member registry removes
only the first member — the removal of the element under the iterator shifts
the list, the iterator advances, and the second member is skipped — so the
member count afterward is 1 and the all-taxa mask is 1, not 0. -/
theorem c7_clear_skips_alternate_members :
    TaxonSet.clear ⟨[0, 1], true⟩ = ⟨[1], true⟩
    ∧ (TaxonSet.clear ⟨[0, 1], true⟩).members.length = 1
    ∧ all_taxa_bitmask (TaxonSet.clear ⟨[0, 1], true⟩) = 1 :=
  ⟨rfl, rfl, rfl⟩

/-- C8 (confirmed): requireTaxon by label on a locked registry with no member
matching the label fails with ImmutableRegistryError and leaves the member
sequence unchanged. -/
theorem c8_require_taxon_locked_atomic (w : World) (ts : TaxonSet) (lbl : String)
    (h1 : ts.is_mutable = false)
    (h2 : get_taxon w ts none (some lbl) = .ok none) :
    require_taxon w ts none (some lbl) = .error .immutable
    ∧ members_after_require w ts none (some lbl) = ts.members := by
  have hr : require_taxon w ts none (some lbl) = .error .immutable := by
    unfold require_taxon
    rw [h2, h1]
    rfl
  refine ⟨hr, ?_⟩
  unfold members_after_require
  rw [hr]

/-- C8 (witness): the theorem at the concrete empty locked registry with
label X. -/
theorem c8_require_taxon_locked_atomic_witness :
    require_taxon ⟨[]⟩ ⟨[], false⟩ none (some "X") = .error .immutable
    ∧ members_after_require ⟨[]⟩ ⟨[], false⟩ none (some "X") = [] :=
  c8_require_taxon_locked_atomic ⟨[]⟩ ⟨[], false⟩ "X" rfl rfl

set_option maxRecDepth 100000 in
/-- C9 (confirmed): the factory with the default label function produces, in
order, exactly the labels T001 through T100 for a count of 100 (width 3,
zero-padded), and exactly T1 through T5 for a count of 5 (width 1). -/
theorem c9_generate_default_labels :
    (new_taxon_set ⟨[]⟩ 100).map (fun p => TaxonSet.getLabels p.1 p.2)
      = .ok [
        "T001", "T002", "T003", "T004", "T005", "T006",
        "T007", "T008", "T009", "T010", "T011", "T012",
        "T013", "T014", "T015", "T016", "T017", "T018",
        "T019", "T020", "T021", "T022", "T023", "T024",
        "T025", "T026", "T027", "T028", "T029", "T030",
        "T031", "T032", "T033", "T034", "T035", "T036",
        "T037", "T038", "T039", "T040", "T041", "T042",
        "T043", "T044", "T045", "T046", "T047", "T048",
        "T049", "T050", "T051", "T052", "T053", "T054",
        "T055", "T056", "T057", "T058", "T059", "T060",
        "T061", "T062", "T063", "T064", "T065", "T066",
        "T067", "T068", "T069", "T070", "T071", "T072",
        "T073", "T074", "T075", "T076", "T077", "T078",
        "T079", "T080", "T081", "T082", "T083", "T084",
        "T085", "T086", "T087", "T088", "T089", "T090",
        "T091", "T092", "T093", "T094", "T095", "T096",
        "T097", "T098", "T099", "T100"]
    ∧ (new_taxon_set ⟨[]⟩ 5).map (fun p => TaxonSet.getLabels p.1 p.2)
      = .ok ["T1", "T2", "T3", "T4", "T5"] :=
  ⟨rfl, rfl⟩

/-- C10 (confirmed): for every registry and every nonnegative mask, the
complement has, at each bit, the AND of the all-taxa mask with the negation
of the mask — so it never exceeds the all-taxa mask — and whenever the mask
has bits beyond the member count (mask greater than the all-taxa mask) the
result differs from mask XOR the all-taxa mask, because those bits are
cleared rather than preserved. -/
theorem c10_complement_clears_out_of_range (ts : TaxonSet) (mask : Nat) :
    (∀ i, (complement_split_bitmask ts mask).testBit i
        = (!(mask.testBit i) && (all_taxa_bitmask ts).testBit i))
    ∧ complement_split_bitmask ts mask ≤ all_taxa_bitmask ts
    ∧ (all_taxa_bitmask ts < mask →
        complement_split_bitmask ts mask ≠ mask ^^^ all_taxa_bitmask ts) := by
  have hall : all_taxa_bitmask ts = 2 ^ ts.members.length - 1 := by
    simp [all_taxa_bitmask, Nat.one_shiftLeft]
  have hpos : 0 < 2 ^ ts.members.length := Nat.pos_pow_of_pos _ (by omega)
  have hbits : ∀ i, (complement_split_bitmask ts mask).testBit i
      = (!(mask.testBit i) && (all_taxa_bitmask ts).testBit i) := by
    intro i
    simp only [complement_split_bitmask, hall, Nat.testBit_xor,
      Nat.testBit_and, Nat.testBit_two_pow_sub_one]
    by_cases hi : i < ts.members.length
    · cases hmi : mask.testBit i <;> simp [hi, hmi]
    · simp [hi]
  refine ⟨hbits, ?_, ?_⟩
  · have hlt : complement_split_bitmask ts mask < 2 ^ ts.members.length := by
      by_contra hge
      obtain ⟨i, hi, hbit⟩ :=
        Nat.ge_two_pow_implies_high_bit_true (Nat.le_of_not_lt hge)
      have hb := hbits i
      rw [hbit, hall] at hb
      simp [Nat.testBit_two_pow_sub_one, Nat.lt_iff_add_one_le] at hb
      omega
    omega
  · intro hlt heq
    have hge : 2 ^ ts.members.length ≤ mask := by omega
    obtain ⟨i, hi, hbit⟩ := Nat.ge_two_pow_implies_high_bit_true hge
    have hb := hbits i
    rw [heq, hall] at hb
    simp [Nat.testBit_xor, Nat.testBit_two_pow_sub_one, hbit,
      Nat.lt_iff_add_one_le] at hb
    omega

/-- C10 (witness): the theorem at a two-member registry with the out-of-range
mask 5: the complement stays within the all-taxa mask and differs from the
XOR value. -/
theorem c10_complement_clears_out_of_range_witness :
    complement_split_bitmask ⟨[0, 1], true⟩ 5 ≤ all_taxa_bitmask ⟨[0, 1], true⟩
    ∧ complement_split_bitmask ⟨[0, 1], true⟩ 5
        ≠ 5 ^^^ all_taxa_bitmask ⟨[0, 1], true⟩ :=
  ⟨(c10_complement_clears_out_of_range ⟨[0, 1], true⟩ 5).2.1,
   (c10_complement_clears_out_of_range ⟨[0, 1], true⟩ 5).2.2 (by decide)⟩

end DendroPy
